import Mathlib

/-!
Verification of `stat.c` (a Solaris re-implementation of the Linux `stat`
command) against its natural-language specification, via a shallow embedding
of the program in Lean.  Machine modes are natural numbers; the Solaris
`S_IF*` constants are spelled with their numeric values.  The operating
system (the `stat`/`lstat` system calls, `readlink`, the identity database
and `strerror`) is modelled as an explicit record of functions.
-/

namespace StatC

/-- Solaris `S_IFMT` file-type mask (0xF000). -/
def S_IFMT : Nat := 0xF000

/-- Solaris `S_IAMB` access-bits mask (0777). -/
def S_IAMB : Nat := 0o777

/-- Embedding of `is_device_type` from stat.c: true for character and block
devices (`S_IFCHR`, `S_IFBLK`). -/
def is_device_type (st_mode : Nat) : Bool :=
  st_mode &&& S_IFMT == 0x2000 || st_mode &&& S_IFMT == 0x6000

/-- Embedding of `is_symlink` from stat.c: `(st_mode & S_IFMT) == S_IFLNK`. -/
def is_symlink (st_mode : Nat) : Bool :=
  st_mode &&& S_IFMT == 0xA000

/-- Embedding of `file_type` from stat.c: the switch on `st_mode & S_IFMT`
returning the human-readable file-type label. -/
def file_type (st_mode : Nat) : String :=
  if st_mode &&& S_IFMT = 0x1000 then "named fifo"
  else if st_mode &&& S_IFMT = 0x2000 then "character device"
  else if st_mode &&& S_IFMT = 0x4000 then "directory"
  else if st_mode &&& S_IFMT = 0x6000 then "block device"
  else if st_mode &&& S_IFMT = 0x8000 then "regular file"
  else if st_mode &&& S_IFMT = 0xA000 then "symbolic link"
  else if st_mode &&& S_IFMT = 0xC000 then "socket"
  else if st_mode &&& S_IFMT = 0xD000 then "door"
  else if st_mode &&& S_IFMT = 0xE000 then "event port"
  else "<unknown>"

/-- Embedding of `file_type_char` from stat.c: the switch on
`st_mode & S_IFMT` returning the symbolic type character. -/
def file_type_char (st_mode : Nat) : Char :=
  if st_mode &&& S_IFMT = 0x1000 then 'p'
  else if st_mode &&& S_IFMT = 0x2000 then 'c'
  else if st_mode &&& S_IFMT = 0x4000 then 'd'
  else if st_mode &&& S_IFMT = 0x6000 then 'b'
  else if st_mode &&& S_IFMT = 0x8000 then '-'
  else if st_mode &&& S_IFMT = 0xA000 then 'l'
  else if st_mode &&& S_IFMT = 0xC000 then 's'
  else if st_mode &&& S_IFMT = 0xD000 then 'D'
  else if st_mode &&& S_IFMT = 0xE000 then 'P'
  else '?'

/-- Embedding of `user_perms` from stat.c: the three owner-permission
characters, with setuid substitution in the execute slot. -/
def user_perms (st_mode : Nat) : List Char :=
  [ if st_mode &&& 0o400 ≠ 0 then 'r' else '-',
    if st_mode &&& 0o200 ≠ 0 then 'w' else '-',
    if st_mode &&& 0o4000 ≠ 0 then (if st_mode &&& 0o100 ≠ 0 then 's' else 'S')
    else (if st_mode &&& 0o100 ≠ 0 then 'x' else '-') ]

/-- Embedding of `group_perms` from stat.c: the three group-permission
characters, with setgid substitution in the execute slot. -/
def group_perms (st_mode : Nat) : List Char :=
  [ if st_mode &&& 0o40 ≠ 0 then 'r' else '-',
    if st_mode &&& 0o20 ≠ 0 then 'w' else '-',
    if st_mode &&& 0o2000 ≠ 0 then (if st_mode &&& 0o10 ≠ 0 then 's' else 'S')
    else (if st_mode &&& 0o10 ≠ 0 then 'x' else '-') ]

/-- Embedding of `other_perms` from stat.c: the three other-permission
characters.  Note: the source has no sticky-bit handling here — the
execute slot is always `x`/`-`. -/
def other_perms (st_mode : Nat) : List Char :=
  [ if st_mode &&& 0o4 ≠ 0 then 'r' else '-',
    if st_mode &&& 0o2 ≠ 0 then 'w' else '-',
    if st_mode &&& 0o1 ≠ 0 then 'x' else '-' ]

/-- The 10-character symbolic mode `%c%s%s%s` printed by
`decode_permissions` in stat.c: type character followed by the three
permission triplets. -/
def symbolicMode (st_mode : Nat) : String :=
  String.mk (file_type_char st_mode ::
    (user_perms st_mode ++ group_perms st_mode ++ other_perms st_mode))

/-- Left-pad a string with spaces to width `w` (printf `%Nd`/`%Ns`). -/
def padLeft (w : Nat) (s : String) : String :=
  String.mk (List.replicate (w - s.length) ' ') ++ s

/-- Right-pad a string with spaces to width `w` (printf `%-Nd`). -/
def padRight (w : Nat) (s : String) : String :=
  s ++ String.mk (List.replicate (w - s.length) ' ')

/-- Zero-pad a string to width `w` (printf `%0No`). -/
def zeroPad (w : Nat) (s : String) : String :=
  String.mk (List.replicate (w - s.length) '0') ++ s

/-- Octal rendering of a natural number (printf `%o`). -/
def octStr (n : Nat) : String :=
  String.mk (Nat.toDigits 8 n)

/-- Lowercase hexadecimal rendering of a natural number (printf `%x`). -/
def hexStr (n : Nat) : String :=
  String.mk (Nat.toDigits 16 n)

/-- The octal permissions field of the permissions line in stat.c:
`%04o` applied to `st_mode & S_IAMB`. -/
def octalField (st_mode : Nat) : String :=
  zeroPad 4 (octStr (st_mode &&& S_IAMB))

/-- Two-character zero-padded decimal rendering (the low two digits),
as produced by `strftime` field specifiers such as `%m`, `%d`, `%H`. -/
def two_digits (n : Nat) : List Char :=
  [Char.ofNat (48 + n / 10 % 10), Char.ofNat (48 + n % 10)]

/-- Four-character zero-padded decimal rendering (the low four digits),
as produced by `strftime` `%Y` for years 0–9999. -/
def four_digits (n : Nat) : List Char :=
  two_digits (n / 100) ++ two_digits n

/-- Model of libc `localtime` day-count → civil-date conversion
(proleptic Gregorian calendar): given a count of days since 1970-01-01,
returns (year, month, day). -/
def civilFromDays (z0 : Int) : Int × Nat × Nat :=
  let z := z0 + 719468
  let era := (if 0 ≤ z then z else z - 146096) / 146097
  let doe := (z - era * 146097).toNat
  let yoe := (doe - doe / 1460 + doe / 36524 - doe / 146096) / 365
  let y := (yoe : Int) + era * 400
  let doy := doe - (365 * yoe + yoe / 4 - yoe / 100)
  let mp := (5 * doy + 2) / 153
  let d := doy - (153 * mp + 2) / 5 + 1
  let m := if mp < 10 then mp + 3 else mp - 9
  (if m ≤ 2 then y + 1 else y, m, d)

/-- The `%z` timezone suffix of `strftime`: sign followed by two hour
digits and two minute digits, for a fixed UTC offset in seconds. -/
def tzChars (off : Int) : List Char :=
  (if off < 0 then '-' else '+') ::
    (two_digits (off.natAbs / 3600) ++ two_digits (off.natAbs % 3600 / 60))

/-- Model of `localtime_r` + `strftime "%Y-%m-%d %H:%M:%S%z"` as called by
`format_times` in stat.c, for a timezone with fixed UTC offset `off`
seconds: converts the epoch time `t` to local civil time and renders it. -/
def format_time (off t : Int) : String :=
  let loc := t + off
  let sod := (loc.emod 86400).toNat
  let c := civilFromDays (loc.ediv 86400)
  String.mk (four_digits c.1.toNat ++ '-' :: two_digits c.2.1 ++ '-' ::
    two_digits c.2.2 ++ ' ' :: two_digits (sod / 3600) ++ ':' ::
    two_digits (sod % 3600 / 60) ++ ':' :: two_digits (sod % 60) ++ tzChars off)

/-- Shape test for the rendered timestamp list: exactly 24 characters,
`YYYY-MM-DD HH:MM:SS` followed by a sign and four offset digits. -/
def timePatternL : List Char → Bool
  | [y1, y2, y3, y4, s1, mo1, mo2, s2, d1, d2, sp, h1, h2, c1, mi1, mi2, c2,
     se1, se2, sg, o1, o2, o3, o4] =>
    y1.isDigit && y2.isDigit && y3.isDigit && y4.isDigit && s1 == '-' &&
    mo1.isDigit && mo2.isDigit && s2 == '-' && d1.isDigit && d2.isDigit &&
    sp == ' ' && h1.isDigit && h2.isDigit && c1 == ':' && mi1.isDigit &&
    mi2.isDigit && c2 == ':' && se1.isDigit && se2.isDigit &&
    (sg == '+' || sg == '-') && o1.isDigit && o2.isDigit && o3.isDigit &&
    o4.isDigit
  | _ => false

/-- Shape test `YYYY-MM-DD HH:MM:SS±ZZZZ` on a string. -/
def timePattern (s : String) : Bool :=
  timePatternL s.data

/-- The metadata record filled in by `stat`/`lstat` (`struct stat` fields
used by stat.c; `st_rdev` is carried as its decoded major/minor pair). -/
structure FileInfo where
  st_mode : Nat
  st_size : Int
  st_blocks : Int
  st_blksize : Int
  st_dev : Nat
  st_ino : Int
  st_nlink : Int
  st_rdev_major : Nat
  st_rdev_minor : Nat
  st_uid : Nat
  st_gid : Nat
  st_atime : Int
  st_mtime : Int
  st_ctime : Int
  deriving DecidableEq

/-- The operating-system interface used by stat.c: the `stat` and `lstat`
system calls (error value = `errno`), `readlink`, the identity database
(`getpwuid_r`/`getgrgid_r`, as the entry string placed in the caller's
buffer, or `none` when no entry matches), `strerror`, and the local
timezone's fixed UTC offset in seconds. -/
structure Sys where
  stat : String → Except Nat FileInfo
  lstat : String → Except Nat FileInfo
  readlink : String → Option String
  pw : Nat → Option String
  gr : Nat → Option String
  strerror : Nat → String
  tzOffsetSec : Int

/-- Embedding of `get_uid_string` from stat.c: the identity-database entry
string on success, the literal `"<unknown>"` when the lookup fails. -/
def get_uid_string (sys : Sys) (the_uid : Nat) : String :=
  match sys.pw the_uid with
  | some s => s
  | none => "<unknown>"

/-- Embedding of `get_gid_string` from stat.c: the identity-database entry
string on success, the literal `"<unknown>"` when the lookup fails. -/
def get_gid_string (sys : Sys) (the_gid : Nat) : String :=
  match sys.gr the_gid with
  | some s => s
  | none => "<unknown>"

/-- Embedding of `decode_permissions` from stat.c: the line printed by
`printf("Access: (%04o/%c%s%s%s)  Uid: (%5d/%8s)   Gid: (%5d/%8s)\n", ...)`. -/
def decode_permissions (sys : Sys) (finfo : FileInfo) : String :=
  "Access: (" ++ octalField finfo.st_mode ++ "/" ++ symbolicMode finfo.st_mode ++
  ")  Uid: (" ++ padLeft 5 (toString finfo.st_uid) ++ "/" ++
  padLeft 8 (get_uid_string sys finfo.st_uid) ++ ")   Gid: (" ++
  padLeft 5 (toString finfo.st_gid) ++ "/" ++
  padLeft 8 (get_gid_string sys finfo.st_gid) ++ ")\n"

/-- The identity (`File:`) line printed by `main` in stat.c: for symlinks
the `-> target` suffix (backquote/quote as in the source), with the
`<unable to read target>` placeholder when `readlink` fails. -/
def identityLine (sys : Sys) (path : String) (finfo : FileInfo) : String :=
  if is_symlink finfo.st_mode then
    match sys.readlink path with
    | some target => "  File: \x60" ++ path ++ "\x27 -> \x60" ++ target ++ "\x27\n"
    | none => "  File: \x60" ++ path ++ "\x27 -> <unable to read target>\n"
  else
    "  File: \x60" ++ path ++ "\x27\n"

/-- The size line printed by `main` in stat.c:
`"  Size: %-10lld\tBlocks: %-10lld IO Block: %-lld %s\n"`. -/
def sizeLine (finfo : FileInfo) : String :=
  "  Size: " ++ padRight 10 (toString finfo.st_size) ++ "\tBlocks: " ++
  padRight 10 (toString finfo.st_blocks) ++ " IO Block: " ++
  toString finfo.st_blksize ++ " " ++ file_type finfo.st_mode ++ "\n"

/-- The device/inode line printed by `main` in stat.c:
`"Device: %xh/%dd Inode: %-10lld Links: %-lld"` followed either by
`" Device type: %d,%d\n"` (character/block devices) or a newline. -/
def devLine (finfo : FileInfo) : String :=
  "Device: " ++ hexStr finfo.st_dev ++ "h/" ++ toString finfo.st_dev ++
  "d Inode: " ++ padRight 10 (toString finfo.st_ino) ++ " Links: " ++
  toString finfo.st_nlink ++
  (if is_device_type finfo.st_mode then
    " Device type: " ++ toString finfo.st_rdev_major ++ "," ++
      toString finfo.st_rdev_minor ++ "\n"
  else "\n")

/-- The three timestamp lines printed by `main` in stat.c from the strings
filled in by `format_times`. -/
def timeLines (sys : Sys) (finfo : FileInfo) : String :=
  "Access: " ++ format_time sys.tzOffsetSec finfo.st_atime ++ "\n" ++
  "Modify: " ++ format_time sys.tzOffsetSec finfo.st_mtime ++ "\n" ++
  "Change: " ++ format_time sys.tzOffsetSec finfo.st_ctime ++ "\n"

/-- The message printed by `perror("Unable to stat() file")` for error
code `e`. -/
def perrorMsg (sys : Sys) (e : Nat) : String :=
  "Unable to stat() file: " ++ sys.strerror e ++ "\n"

/-- Outcome of a run (or of one loop iteration) of stat.c's `main`:
standard output, standard error, the final `rc`, the paths for which the
stat function was invoked, and the query failures encountered, in order. -/
structure RunResult where
  out : String
  err : String
  rc : Nat
  queried : List String
  failures : List (String × Nat)
  deriving DecidableEq

/-- The stat-function selection in `main`:
`stat_fn = ( follow_symlinks ? stat : lstat )`. -/
def stat_fn (sys : Sys) (follow_symlinks : Bool) : String → Except Nat FileInfo :=
  if follow_symlinks then sys.stat else sys.lstat

/-- One iteration of the `main` loop of stat.c on one path argument:
query the path, and on success print the identity, size, device,
permission and timestamp lines; on failure print the `perror` message and
set `rc` to the error code. -/
def processPath (sys : Sys) (follow_symlinks : Bool) (path : String) : RunResult :=
  match stat_fn sys follow_symlinks path with
  | Except.ok finfo =>
    ⟨identityLine sys path finfo ++ sizeLine finfo ++ devLine finfo ++
      decode_permissions sys finfo ++ timeLines sys finfo, "", 0, [path], []⟩
  | Except.error e =>
    ⟨"", perrorMsg sys e, e, [path], [(path, e)]⟩

/-- The `main` loop of stat.c over the path arguments:
`while ( (rc == 0) && (argn < argc) )` — the next path is processed only
while `rc` is still 0, so the loop stops after the first iteration that
leaves a non-zero `rc`. -/
def runPaths (sys : Sys) (follow_symlinks : Bool) : List String → RunResult
  | [] => ⟨"", "", 0, [], []⟩
  | path :: rest =>
    let r := processPath sys follow_symlinks path
    if r.rc = 0 then
      let r2 := runPaths sys follow_symlinks rest
      ⟨r.out ++ r2.out, r.err ++ r2.err, r2.rc, r.queried ++ r2.queried,
        r.failures ++ r2.failures⟩
    else r

/-- The usage text printed by `usage(argv[0])` in stat.c. -/
def usageText (exe : String) : String :=
  "usage:\n\n  " ++ exe ++
  " \x7boptions\x7d <path> \x7b<path> ..\x7d\n\n options:\n\n" ++
  "  -h/--help            display this help and exit\n" ++
  "  -L/--dereference     follow symlinks\n\n"

/-- Embedding of `main` from stat.c after flag parsing: `exe` is
`argv[0]`, `follow_symlinks` the `-L` flag, `paths` the remaining
non-flag arguments.  With no paths it prints the error and usage text and
sets `rc = EINVAL` (22); otherwise it runs the loop over the paths. -/
def statMain (exe : String) (sys : Sys) (follow_symlinks : Bool)
    (paths : List String) : RunResult :=
  if paths.isEmpty then
    ⟨"ERROR:  no files provided\n" ++ usageText exe, "", 22, [], []⟩
  else
    runPaths sys follow_symlinks paths

/-- A concrete regular-file metadata record (mode 0644). -/
def fi0 : FileInfo :=
  ⟨0o100644, 1024, 2, 8192, 100, 7, 1, 0, 0, 0, 0, 1517501132, 1517501132, 1517501132⟩

/-- A concrete symlink metadata record (mode 0777, type `S_IFLNK`). -/
def lfi0 : FileInfo :=
  ⟨0o120777, 3, 0, 8192, 100, 8, 1, 0, 0, 0, 0, 1517501132, 1517501132, 1517501132⟩

/-- A concrete regular-file record standing for a symlink's target. -/
def tfi0 : FileInfo :=
  ⟨0o100755, 512, 1, 8192, 100, 9, 1, 0, 0, 0, 0, 1517501132, 1517501132, 1517501132⟩

/-- A concrete system in which path `"a"` fails to stat with `ENOENT` (2)
and every other path is the regular file `fi0`. -/
def sysA : Sys :=
  ⟨fun p => if p = "a" then Except.error 2 else Except.ok fi0,
   fun p => if p = "a" then Except.error 2 else Except.ok fi0,
   fun _ => none, fun _ => some "root", fun _ => some "root",
   fun _ => "No such file or directory", -18000⟩

/-- A concrete system whose identity database resolves no user or group. -/
def sysN : Sys :=
  ⟨fun _ => Except.ok fi0, fun _ => Except.ok fi0, fun _ => none,
   fun _ => none, fun _ => none, fun _ => "No such file or directory", -18000⟩

/-- A concrete record with an unresolvable owner (uid/gid 1234, mode 0755). -/
def fiN : FileInfo :=
  ⟨0o100755, 0, 0, 8192, 100, 7, 1, 0, 0, 1234, 1234, 0, 0, 0⟩

/-- A concrete system where `"s"` is a symlink (`lfi0`) to a readable
target `"tgt"` which is the regular file `tfi0`. -/
def sysL : Sys :=
  ⟨fun _ => Except.ok tfi0, fun _ => Except.ok lfi0, fun _ => some "tgt",
   fun _ => some "root", fun _ => some "root",
   fun _ => "No such file or directory", -18000⟩

/-- Like `sysL`, but the symlink target cannot be read. -/
def sysL2 : Sys :=
  ⟨fun _ => Except.ok tfi0, fun _ => Except.ok lfi0, fun _ => none,
   fun _ => some "root", fun _ => some "root",
   fun _ => "No such file or directory", -18000⟩

/-- Modelled from the spec's fixed file-type mapping (§4.3), as an
association list over the `S_IFMT` type value with a default. -/
def specTypeTable : List (Nat × String × Char) :=
  [(0x1000, "named fifo", 'p'), (0x2000, "character device", 'c'),
   (0x4000, "directory", 'd'), (0x6000, "block device", 'b'),
   (0x8000, "regular file", '-'), (0xA000, "symbolic link", 'l'),
   (0xC000, "socket", 's'), (0xD000, "door", 'D'),
   (0xE000, "event port", 'P')]

/-- The (label, type char) the spec's mapping assigns to a mode. -/
def specTypeOf (st_mode : Nat) : String × Char :=
  (specTypeTable.lookup (st_mode &&& S_IFMT)).getD ("<unknown>", '?')

/-- C7: for every file mode, the human-readable file-type label and the
symbolic type character agree with the fixed mapping: fifo to
"named fifo" and p, character-device to "character device" and c,
directory to "directory" and d, block-device to "block device" and b,
regular to "regular file" and dash, symlink to "symbolic link" and l,
socket to "socket" and s, door to "door" and D, event-port to
"event port" and P, anything else to "<unknown>" and question mark. -/
theorem file_type_mapping :
    ∀ st_mode : Nat,
      file_type st_mode = (specTypeOf st_mode).1 ∧
      file_type_char st_mode = (specTypeOf st_mode).2 := by
  intro m
  simp only [file_type, file_type_char, specTypeOf, specTypeTable]
  generalize m &&& S_IFMT = k
  by_cases h1 : k = 0x1000
  · subst h1; simp [List.lookup]
  by_cases h2 : k = 0x2000
  · subst h2; simp [List.lookup]
  by_cases h3 : k = 0x4000
  · subst h3; simp [List.lookup]
  by_cases h4 : k = 0x6000
  · subst h4; simp [List.lookup]
  by_cases h5 : k = 0x8000
  · subst h5; simp [List.lookup]
  by_cases h6 : k = 0xA000
  · subst h6; simp [List.lookup]
  by_cases h7 : k = 0xC000
  · subst h7; simp [List.lookup]
  by_cases h8 : k = 0xD000
  · subst h8; simp [List.lookup]
  by_cases h9 : k = 0xE000
  · subst h9; simp [List.lookup]
  simp [List.lookup, h1, h2, h3, h4, h5, h6, h7, h8, h9,
    beq_eq_false_iff_ne.mpr h1, beq_eq_false_iff_ne.mpr h2,
    beq_eq_false_iff_ne.mpr h3, beq_eq_false_iff_ne.mpr h4,
    beq_eq_false_iff_ne.mpr h5, beq_eq_false_iff_ne.mpr h6,
    beq_eq_false_iff_ne.mpr h7, beq_eq_false_iff_ne.mpr h8,
    beq_eq_false_iff_ne.mpr h9]

/-- C2 counterexample: the claim requires the sticky bit to substitute the
other-execute position with `t` when the execute bit is set, so mode
0101755 (sticky regular file) would render as `-rwxr-xr-t`; the code
renders `-rwxr-xr-x` — the sticky bit is never rendered. -/
theorem sticky_bit_not_rendered_cex :
    symbolicMode 0o101755 = "-rwxr-xr-x" ∧
    ¬ symbolicMode 0o101755 = "-rwxr-xr-t" := by
  decide

/-- C2 (amended): for every file mode, the symbolic mode rendering is a
10-character string: the type character followed by three rwx triplets,
where the setuid and setgid bits substitute the corresponding execute
position with `s`/`S` (lowercase when the execute bit is also set), while
the sticky bit is ignored: the other-execute position is always `x`/`-`.
Mode 0755 on a regular file renders as `-rwxr-xr-x`, 4755 as
`-rwsr-xr-x`, and 4655 with uppercase `S` in the owner triplet. -/
theorem symbolic_mode_rendering :
    ∀ st_mode : Nat,
      (symbolicMode st_mode).length = 10 ∧
      (symbolicMode st_mode).data.getD 0 '?' = file_type_char st_mode ∧
      (symbolicMode st_mode).data.getD 3 '?' =
        (if st_mode &&& 0o4000 ≠ 0 then
          (if st_mode &&& 0o100 ≠ 0 then 's' else 'S')
         else (if st_mode &&& 0o100 ≠ 0 then 'x' else '-')) ∧
      (symbolicMode st_mode).data.getD 6 '?' =
        (if st_mode &&& 0o2000 ≠ 0 then
          (if st_mode &&& 0o10 ≠ 0 then 's' else 'S')
         else (if st_mode &&& 0o10 ≠ 0 then 'x' else '-')) ∧
      (symbolicMode st_mode).data.getD 9 '?' =
        (if st_mode &&& 0o1 ≠ 0 then 'x' else '-') ∧
      symbolicMode 0o100755 = "-rwxr-xr-x" ∧
      symbolicMode 0o104755 = "-rwsr-xr-x" ∧
      symbolicMode 0o104655 = "-rwSr-xr-x" := by
  intro m
  refine ⟨rfl, rfl, rfl, rfl, rfl, by decide, by decide, by decide⟩

/-- Bit `i` of 511 is set exactly for the low nine positions. -/
theorem testBit_511 (i : Nat) : Nat.testBit 511 i = decide (i < 9) := by
  by_cases h : i < 9
  · interval_cases i <;> decide
  · have h2 : (511 : Nat) < 2 ^ i := by
      have : (2 : Nat) ^ 9 ≤ 2 ^ i := Nat.pow_le_pow_right (by omega) (by omega)
      omega
    simp [Nat.testBit_lt_two_pow h2, h]

/-- Masking with 511 is reduction modulo 512. -/
theorem and_511_eq_mod (m : Nat) : m &&& 511 = m % 512 := by
  apply Nat.eq_of_testBit_eq
  intro i
  rw [Nat.testBit_and, testBit_511, show (512 : Nat) = 2 ^ 9 from rfl,
    Nat.testBit_mod_two_pow]
  exact Bool.and_comm _ _

/-- Or-ing in a value whose low nine bits are clear does not change the
low-nine-bit mask. -/
theorem lor_preserves_low_mask (c m : Nat) (hc : c &&& 511 = 0) :
    (c ||| m) &&& 511 = m &&& 511 := by
  apply Nat.eq_of_testBit_eq
  intro i
  have hb : Nat.testBit (c &&& 511) i = Nat.testBit 0 i := by rw [hc]
  rw [Nat.testBit_and] at hb
  rw [Nat.testBit_and, Nat.testBit_and, Nat.testBit_or]
  cases hcb : c.testBit i <;> cases h5 : Nat.testBit 511 i <;>
    simp_all

/-- C10: the octal field of the permissions line is the mode masked to the
low nine access bits (`st_mode & S_IAMB`, i.e. the mode modulo 512); the
setuid, setgid and sticky bits never appear in it, so mode 4755 prints the
octal field 0755. -/
theorem octal_field_low_nine_bits :
    (∀ st_mode : Nat, octalField st_mode = zeroPad 4 (octStr (st_mode % 512))) ∧
    (∀ st_mode : Nat,
      octalField (0o4000 ||| st_mode) = octalField st_mode ∧
      octalField (0o2000 ||| st_mode) = octalField st_mode ∧
      octalField (0o1000 ||| st_mode) = octalField st_mode) ∧
    octalField 0o4755 = "0755" ∧ octalField 0o104755 = "0755" ∧
    octalField 0o100755 = "0755" := by
  have hmask : ∀ m : Nat, m &&& S_IAMB = m &&& 511 := fun m => rfl
  refine ⟨fun m => ?_, fun m => ⟨?_, ?_, ?_⟩, by decide, by decide, by decide⟩
  · unfold octalField
    rw [hmask, and_511_eq_mod]
  · unfold octalField
    rw [hmask, hmask, lor_preserves_low_mask _ _ (by decide)]
  · unfold octalField
    rw [hmask, hmask, lor_preserves_low_mask _ _ (by decide)]
  · unfold octalField
    rw [hmask, hmask, lor_preserves_low_mask _ _ (by decide)]

/-- C8: with zero path arguments the program prints the error message and
usage text, exits with the non-zero invalid-usage code `EINVAL` (22), and
does not query any path (the queried list is empty), independently of the
filesystem. -/
theorem no_paths_usage_error :
    ∀ (exe : String) (sys : Sys) (follow_symlinks : Bool),
      statMain exe sys follow_symlinks [] =
        ⟨"ERROR:  no files provided\n" ++ usageText exe, "", 22, [], []⟩ ∧
      (22 : Nat) ≠ 0 := by
  intro exe sys fl
  exact ⟨rfl, by decide⟩

/-- C4 counterexample: for an owner id with no identity-database entry the
code substitutes the literal `"<unknown>"`, not the claimed literal
`"unknown"`: on a record with uid/gid 1234 and mode 0755 the permissions
line carries `<unknown>`, and is not the line the claim predicts (which
would pad `"unknown"` to width 8 as `" unknown"`). -/
theorem unknown_owner_placeholder_cex :
    decode_permissions sysN fiN =
      "Access: (0755/-rwxr-xr-x)  Uid: ( 1234/<unknown>)   Gid: ( 1234/<unknown>)\n" ∧
    ¬ decode_permissions sysN fiN =
      "Access: (0755/-rwxr-xr-x)  Uid: ( 1234/ unknown)   Gid: ( 1234/ unknown)\n" := by
  decide

/-- C4 (amended): for every owner user id or group id that has no matching
entry in the system identity database, the permissions line still prints
the numeric id and substitutes the literal text `"<unknown>"` for the
name. -/
theorem unknown_owner_placeholder (sys : Sys) (finfo : FileInfo)
    (hu : sys.pw finfo.st_uid = none) (hg : sys.gr finfo.st_gid = none) :
    decode_permissions sys finfo =
      "Access: (" ++ octalField finfo.st_mode ++ "/" ++
      symbolicMode finfo.st_mode ++ ")  Uid: (" ++
      padLeft 5 (toString finfo.st_uid) ++ "/" ++ "<unknown>" ++
      ")   Gid: (" ++ padLeft 5 (toString finfo.st_gid) ++ "/" ++
      "<unknown>" ++ ")\n" := by
  unfold decode_permissions get_uid_string get_gid_string
  rw [hu, hg]
  rfl

/-- C4 witness: the amended theorem applied to the concrete system with an
empty identity database and the record with uid/gid 1234. -/
theorem unknown_owner_placeholder_witness :
    decode_permissions sysN fiN =
      "Access: (0755/-rwxr-xr-x)  Uid: ( 1234/<unknown>)   Gid: ( 1234/<unknown>)\n" := by
  rw [unknown_owner_placeholder sysN fiN rfl rfl]
  decide

/-- A zero-padded decimal digit character is a digit. -/
theorem isDigit_pad_char (n : Nat) : (Char.ofNat (48 + n % 10)).isDigit = true := by
  have h : n % 10 < 10 := Nat.mod_lt _ (by omega)
  revert h
  generalize n % 10 = k
  intro h
  interval_cases k <;> decide

/-- C9: the three timestamp lines are the access, modification and change
times rendered by the same formatter; every rendered time has the shape
`YYYY-MM-DD HH:MM:SS±ZZZZ` (24 characters: digits and fixed separators);
and the fixed modification time 1517501132 under the fixed local offset
-0500 renders exactly as `2018-02-01 11:05:32-0500`. -/
theorem timestamp_format :
    (∀ (sys : Sys) (finfo : FileInfo),
      timeLines sys finfo =
        "Access: " ++ format_time sys.tzOffsetSec finfo.st_atime ++ "\n" ++
        "Modify: " ++ format_time sys.tzOffsetSec finfo.st_mtime ++ "\n" ++
        "Change: " ++ format_time sys.tzOffsetSec finfo.st_ctime ++ "\n") ∧
    (∀ off t : Int, timePattern (format_time off t) = true) ∧
    format_time (-18000) 1517501132 = "2018-02-01 11:05:32-0500" := by
  refine ⟨fun sys finfo => rfl, fun off t => ?_, by decide⟩
  unfold timePattern format_time
  simp only [four_digits, two_digits, tzChars, List.cons_append,
    List.nil_append, List.append_assoc]
  simp only [timePatternL, isDigit_pad_char, Bool.and_true, Bool.true_and]
  by_cases h : off < 0 <;> simp [h]

/-- Invariant of the main loop: the final `rc` is the error code of the
last query failure encountered during the run, or 0 if none occurred. -/
theorem rc_eq_last_failure (sys : Sys) (fl : Bool) :
    ∀ paths : List String,
      (runPaths sys fl paths).rc =
        (((runPaths sys fl paths).failures.getLast?).map Prod.snd).getD 0 := by
  intro paths
  induction paths with
  | nil => rfl
  | cons p ps ih =>
    simp only [runPaths]
    cases hp : stat_fn sys fl p with
    | ok fi =>
      simp [processPath, hp, ih]
    | error e =>
      by_cases he : e = 0
      · subst he
        simp only [processPath, hp, if_pos rfl]
        cases hf : (runPaths sys fl ps).failures with
        | nil =>
          rw [hf] at ih
          simpa using ih
        | cons q qs =>
          rw [hf] at ih
          simpa [List.getLast?_cons_cons] using ih
      · simp [processPath, hp, he]

/-- C3: the process exit code is 0 when every path query succeeds, the
non-zero invalid-usage code `EINVAL` (22) when no path arguments are
supplied, and otherwise the OS error code of the last (most recent)
failure encountered during the run. -/
theorem exit_code_policy :
    ∀ (exe : String) (sys : Sys) (follow_symlinks : Bool) (paths : List String),
      (statMain exe sys follow_symlinks paths).rc =
        (if paths = [] then 22
         else (((statMain exe sys follow_symlinks paths).failures.getLast?).map
            Prod.snd).getD 0) ∧
      (22 : Nat) ≠ 0 := by
  intro exe sys fl paths
  refine ⟨?_, by decide⟩
  cases paths with
  | nil => rfl
  | cons p ps =>
    simp only [statMain, List.isEmpty_cons, if_neg (List.cons_ne_nil p ps)]
    simp only [Bool.false_eq_true, if_false]
    exact rc_eq_last_failure sys fl (p :: ps)

/-- C6: for an existing regular (non-symlink) file — a path on which
`stat` and `lstat` agree and whose mode is `S_IFREG` — running the
program with the -L flag and without it produces identical results. -/
theorem dereference_noop_on_regular (exe : String) (sys : Sys) (p : String)
    (finfo : FileInfo) (hl : sys.lstat p = Except.ok finfo)
    (hs : sys.stat p = Except.ok finfo)
    (_hreg : finfo.st_mode &&& S_IFMT = 0x8000) :
    statMain exe sys true [p] = statMain exe sys false [p] := by
  simp [statMain, runPaths, processPath, stat_fn, hl, hs]

/-- C6 witness: the theorem applied to the concrete system `sysA` and the
regular file `fi0` at path "f". -/
theorem dereference_noop_on_regular_witness :
    statMain "stat" sysA true ["f"] = statMain "stat" sysA false ["f"] :=
  dereference_noop_on_regular "stat" sysA "f" fi0 rfl rfl (by decide)

/-- C5: for a symlink whose target exists, output without -L renders the
link's own type (l, "symbolic link") and an identity line with the
arrow-target suffix, while output with -L renders the target's record
(type from the target's mode) and an identity line with no arrow suffix;
when the link target cannot be read, the placeholder
`<unable to read target>` is substituted and processing continues
normally (no failure is recorded and `rc` stays 0). -/
theorem symlink_rendering (sys sys2 : Sys) (p target : String)
    (lfi tfi : FileInfo)
    (h1 : sys.lstat p = Except.ok lfi) (h2 : is_symlink lfi.st_mode = true)
    (h3 : sys.readlink p = some target) (h4 : sys.stat p = Except.ok tfi)
    (h5 : is_symlink tfi.st_mode = false)
    (h6 : sys2.lstat p = Except.ok lfi) (h7 : sys2.readlink p = none) :
    file_type lfi.st_mode = "symbolic link" ∧
    file_type_char lfi.st_mode = 'l' ∧
    (processPath sys false p).out =
      "  File: \x60" ++ p ++ "\x27 -> \x60" ++ target ++ "\x27\n" ++
      (sizeLine lfi ++ devLine lfi ++ decode_permissions sys lfi ++
        timeLines sys lfi) ∧
    (processPath sys true p).out =
      "  File: \x60" ++ p ++ "\x27\n" ++
      (sizeLine tfi ++ devLine tfi ++ decode_permissions sys tfi ++
        timeLines sys tfi) ∧
    (processPath sys2 false p).out =
      "  File: \x60" ++ p ++ "\x27 -> <unable to read target>\n" ++
      (sizeLine lfi ++ devLine lfi ++ decode_permissions sys2 lfi ++
        timeLines sys2 lfi) ∧
    (processPath sys2 false p).rc = 0 ∧
    (processPath sys2 false p).failures = [] := by
  have hm : lfi.st_mode &&& S_IFMT = 0xA000 := by
    have h := h2
    simp only [is_symlink, beq_iff_eq] at h
    exact h
  refine ⟨by simp [file_type, hm], by simp [file_type_char, hm], ?_, ?_, ?_, ?_, ?_⟩
  · simp [processPath, stat_fn, h1, identityLine, h2, h3, String.append_assoc]
  · simp [processPath, stat_fn, h4, identityLine, h5, String.append_assoc]
  · simp [processPath, stat_fn, h6, identityLine, h2, h7, String.append_assoc]
  · simp [processPath, stat_fn, h6]
  · simp [processPath, stat_fn, h6]

/-- C5 witness: the theorem applied to the concrete symlink systems
`sysL` (readable target "tgt") and `sysL2` (unreadable target), the
symlink record `lfi0` and the target record `tfi0`. -/
theorem symlink_rendering_witness :
    file_type lfi0.st_mode = "symbolic link" ∧
    file_type_char lfi0.st_mode = 'l' ∧
    (processPath sysL false "s").out =
      "  File: \x60" ++ "s" ++ "\x27 -> \x60" ++ "tgt" ++ "\x27\n" ++
      (sizeLine lfi0 ++ devLine lfi0 ++ decode_permissions sysL lfi0 ++
        timeLines sysL lfi0) ∧
    (processPath sysL true "s").out =
      "  File: \x60" ++ "s" ++ "\x27\n" ++
      (sizeLine tfi0 ++ devLine tfi0 ++ decode_permissions sysL tfi0 ++
        timeLines sysL tfi0) ∧
    (processPath sysL2 false "s").out =
      "  File: \x60" ++ "s" ++ "\x27 -> <unable to read target>\n" ++
      (sizeLine lfi0 ++ devLine lfi0 ++ decode_permissions sysL2 lfi0 ++
        timeLines sysL2 lfi0) ∧
    (processPath sysL2 false "s").rc = 0 ∧
    (processPath sysL2 false "s").failures = [] :=
  symlink_rendering sysL sysL2 "s" "tgt" lfi0 tfi0 rfl (by decide) rfl rfl
    (by decide) rfl rfl

/-- C1 counterexample: with two path arguments where the first one fails
to stat (path "a", `ENOENT`), the claim requires the remaining path "b"
to still be queried and formatted; in the code the loop condition
`(rc == 0) && (argn < argc)` stops the run, so only "a" is ever queried
and the run ends with `rc = 2`. -/
theorem failure_aborts_processing_cex :
    (statMain "stat" sysA false ["a", "b"]).queried = ["a"] ∧
    ¬ ("b" ∈ (statMain "stat" sysA false ["a", "b"]).queried) ∧
    (statMain "stat" sysA false ["a", "b"]).rc = 2 := by
  decide

/-- C1 (amended): when the metadata query for one path fails with a
non-zero error code, the program reports the error for that path and then
stops: the paths queried are exactly the successful prefix plus the
failing path, later path arguments are never queried, and the run's error
output is the `perror` message for that failure. -/
theorem stops_after_first_failure (exe : String) (sys : Sys)
    (follow_symlinks : Bool) (ps₁ : List String) (p : String)
    (ps₂ : List String) (e : Nat)
    (hok : ∀ q ∈ ps₁, ∃ finfo, stat_fn sys follow_symlinks q = Except.ok finfo)
    (herr : stat_fn sys follow_symlinks p = Except.error e) (hne : e ≠ 0) :
    (statMain exe sys follow_symlinks (ps₁ ++ p :: ps₂)).queried = ps₁ ++ [p] ∧
    (statMain exe sys follow_symlinks (ps₁ ++ p :: ps₂)).rc = e ∧
    (statMain exe sys follow_symlinks (ps₁ ++ p :: ps₂)).failures = [(p, e)] ∧
    (statMain exe sys follow_symlinks (ps₁ ++ p :: ps₂)).err =
      perrorMsg sys e := by
  have key : ∀ l : List String,
      (∀ q ∈ l, ∃ finfo, stat_fn sys follow_symlinks q = Except.ok finfo) →
      (runPaths sys follow_symlinks (l ++ p :: ps₂)).queried = l ++ [p] ∧
      (runPaths sys follow_symlinks (l ++ p :: ps₂)).rc = e ∧
      (runPaths sys follow_symlinks (l ++ p :: ps₂)).failures = [(p, e)] ∧
      (runPaths sys follow_symlinks (l ++ p :: ps₂)).err = perrorMsg sys e := by
    intro l
    induction l with
    | nil =>
      intro _
      simp [runPaths, processPath, herr, hne]
    | cons q qs ih =>
      intro hq
      obtain ⟨finfo, hfi⟩ := hq q (by simp)
      obtain ⟨a, b, c, d⟩ := ih (fun r hr => hq r (by simp [hr]))
      simp [runPaths, processPath, hfi, a, b, c, d]
  have hne2 : (ps₁ ++ p :: ps₂).isEmpty = false := by
    cases ps₁ <;> simp
  simpa [statMain, hne2] using key ps₁ hok

/-- C1 witness: the amended theorem applied to the concrete system `sysA`
(path "a" fails with code 2) and the argument list ["b", "a", "c"]. -/
theorem stops_after_first_failure_witness :
    (statMain "stat" sysA false (["b"] ++ "a" :: ["c"])).queried =
      ["b"] ++ ["a"] ∧
    (statMain "stat" sysA false (["b"] ++ "a" :: ["c"])).rc = 2 ∧
    (statMain "stat" sysA false (["b"] ++ "a" :: ["c"])).failures =
      [("a", 2)] ∧
    (statMain "stat" sysA false (["b"] ++ "a" :: ["c"])).err =
      perrorMsg sysA 2 :=
  stops_after_first_failure "stat" sysA false ["b"] "a" ["c"] 2
    (by intro q hq
        simp only [List.mem_singleton] at hq
        subst hq
        exact ⟨fi0, rfl⟩)
    rfl (by decide)

end StatC
